import Mathlib

/-!
Verification development for the `digital_camera` repository.

The Python sources are shallowly embedded:

* `GPIO_interface.py`, class `Switch` — `Switch` structure and `Switch.update`;
  GPIO levels (0/1) are embedded as `Bool`.
* `main.py`, `get_next_filename` — `next_filename_core` / `get_next_filename`
  (directory listings are lists of filenames; filenames are `List Char`,
  mirroring Python strings; a non-existent directory makes `os.listdir`
  raise, embedded as `Except.error`).
* `main.py`, `trigger_callback` — `trigger_callback` over an explicit
  `CamState` (the module-level globals) and an `Env` (the outcome of
  `get_sd_path`, the DCIM directory listing, and the wall clock), returning
  the new state plus observable `Effects` (files created, messages printed,
  `os.sync` calls, whether a mount was attempted).
* `main.py`, the `while True` loop body of `main` — `tick`, and `runTicks`
  for whole input sequences.
* `main.py`, the FPS-calibration loop in `main` — `calibFrames`/`calibrate`.

Wall-clock times and `camera_fps` (Python floats) are embedded as `ℚ`.
-/

/-- A polled GPIO switch (`GPIO_interface.py`, class `Switch`).
`state` is the last sampled level, `prev_state` is `none` exactly until the
first `update`. -/
structure Switch where
  state : Bool
  prev_state : Option Bool
deriving DecidableEq, Repr

/-- `Switch.__init__`: `state = 0`, `prev_state = None`. -/
def Switch.init : Switch := ⟨false, none⟩

/-- `Switch.update`, with the freshly sampled level passed explicitly.
Returns whether the edge callback fired, together with the updated switch:
the callback fires iff `prev_state is not None and new_state != prev_state`,
then `prev_state` and `state` are both set to the new level. -/
def Switch.update (s : Switch) (new_state : Bool) : Bool × Switch :=
  ((match s.prev_state with
    | none => false
    | some p => new_state != p),
   { state := new_state, prev_state := some new_state })

/-- Run a sequence of sampled levels through `Switch.update`, collecting the
list of "callback fired" flags, one per call. -/
def runFired (s : Switch) : List Bool → List Bool
  | [] => []
  | l :: ls =>
    let r := s.update l
    r.1 :: runFired r.2 ls

/-- Spec-side characterisation of edge reporting (spec §3, §8): no edge on the
first sample, and afterwards an edge exactly when the newly sampled level
differs from the immediately preceding one. -/
def specEdges : List Bool → List Bool
  | [] => []
  | l :: ls => false :: List.zipWith bne ls (l :: ls)

/- Filenames.  Python strings are embedded as `List Char`. -/

/-- `os.path.join(a, b)` for a relative `b`: `b` if `a` is empty, `a + b` if
`a` already ends in a separator, else `a + "/" + b`. -/
def path_join (a b : List Char) : List Char :=
  if a = [] then b
  else if a.getLast? = some '/' then a ++ b
  else a ++ ['/'] ++ b

/-- Python `f.startswith(prefix)`. -/
def pyStartswith (f p : List Char) : Bool := p.isPrefixOf f

/-- Python `f.endswith(ext)`. -/
def pyEndswith (f e : List Char) : Bool := e.isSuffixOf f

/-- Python `f[len(pre):-len(ext)]` (`main.py` line 51).  With `ext = ""` the
slice is `f[len(pre):0]`, i.e. always empty, because `-0 == 0`; with a
non-empty `ext` the stop index is `len(f) - len(ext)`, clamped below at the
start index. -/
def num_part (f pre ext : List Char) : List Char :=
  (f.drop pre.length).take ((if ext.length = 0 then 0 else f.length - ext.length) - pre.length)

/-- Python `s.isdigit()` (restricted to ASCII digits): true iff `s` is
non-empty and all characters are digits. -/
def pyIsdigit (s : List Char) : Bool := !s.isEmpty && s.all Char.isDigit

/-- Python `int(s)` for a digit string. -/
def str_to_nat (s : List Char) : Nat := s.foldl (fun n c => 10 * n + (c.toNat - 48)) 0

/-- Python `f"{n:03d}"`: decimal digits of `n`, left-padded with `'0'` to a
minimum width of 3. -/
def pad3 (n : Nat) : List Char :=
  let s := Nat.toDigits 10 n
  List.replicate (3 - s.length) '0' ++ s

/-- The numeric suffix the loop body of `get_next_filename` extracts from one
directory entry `f`: defined when `f.startswith(pre) and f.endswith(ext)` and
the slice `f[len(pre):-len(ext)]` satisfies `isdigit()`. -/
def code_suffix (pre ext f : List Char) : Option Nat :=
  if pyStartswith f pre && pyEndswith f ext then
    if pyIsdigit (num_part f pre ext) then some (str_to_nat (num_part f pre ext)) else none
  else none

/-- The `highest` accumulator of `get_next_filename` after the scan loop:
fold the extracted suffixes with `max`, starting from 0. -/
def highest_numbered (pre ext : List Char) (listing : List (List Char)) : Nat :=
  listing.foldl (fun h f =>
    match code_suffix pre ext f with
    | some n => max h n
    | none => h) 0

/-- `get_next_filename(dcim_path, prefix, ext)` (`main.py` lines 46–54) on an
existing directory whose `os.listdir` returns `listing`: scan, then join
`f"{prefix}{highest + 1:03d}{ext}"` onto the directory. -/
def next_filename_core (listing : List (List Char)) (dcim_path pre ext : List Char) : List Char :=
  path_join dcim_path (pre ++ pad3 (highest_numbered pre ext listing + 1) ++ ext)

/-- `get_next_filename` with the directory state made explicit: `none` means
the directory does not exist, in which case `os.listdir(dcim_path)` raises
`FileNotFoundError` (embedded as `Except.error ()`). -/
def get_next_filename (dir : Option (List (List Char))) (dcim_path pre ext : List Char) :
    Except Unit (List Char) :=
  match dir with
  | none => Except.error ()
  | some listing => Except.ok (next_filename_core listing dcim_path pre ext)

/-- The candidate middle part of a directory entry: what stands between a
prefix of length `pre.length` and a suffix of length `ext.length`. -/
def spec_mid (pre ext f : List Char) : List Char :=
  (f.drop pre.length).take (f.length - pre.length - ext.length)

/-- Spec-side extraction (spec §4.2): an entry "of the form
`prefix<digits>extension`" — a genuine decomposition `f = pre ++ mid ++ ext`
with `mid` non-empty and all digits — contributes its numeric value; any
other entry is ignored. -/
def spec_suffix (pre ext f : List Char) : Option Nat :=
  if pre ++ spec_mid pre ext f ++ ext = f ∧ spec_mid pre ext f ≠ [] ∧
      (spec_mid pre ext f).all Char.isDigit then
    some (str_to_nat (spec_mid pre ext f))
  else none

/-- Spec-side "maximum numeric suffix found" (0 when no entry matches, so that
an empty directory yields suffix 001). -/
def spec_highest (pre ext : List Char) (listing : List (List Char)) : Nat :=
  listing.foldl (fun h f =>
    match spec_suffix pre ext f with
    | some n => max h n
    | none => h) 0

instance {e a : Type} [DecidableEq e] [DecidableEq a] : DecidableEq (Except e a) := fun x y =>
  match x, y with
  | .error e₁, .error e₂ =>
    if h : e₁ = e₂ then .isTrue (by rw [h]) else .isFalse (fun hc => h (Except.error.inj hc))
  | .error _, .ok _ => .isFalse (fun hc => Except.noConfusion hc)
  | .ok _, .error _ => .isFalse (fun hc => Except.noConfusion hc)
  | .ok a₁, .ok a₂ =>
    if h : a₁ = a₂ then .isTrue (by rw [h]) else .isFalse (fun hc => h (Except.ok.inj hc))

/- The session controller: the module-level globals of `main.py` and
`trigger_callback`. -/

/-- A captured frame; only its pixel dimensions (`frame.shape[:2]`) matter to
the controller. -/
structure Frame where
  rows : Nat
  cols : Nat
deriving DecidableEq, Repr

/-- An open `cv2.VideoWriter`: the file it writes, the frame rate and size it
was opened with, and the frames written so far. -/
structure VideoWriter where
  path : List Char
  fps : ℚ
  frame_width : Nat
  frame_height : Nat
  frames : List Frame
deriving DecidableEq, Repr

/-- Console output of `trigger_callback` (the `print` calls), without the
string formatting. -/
inductive Msg where
  | noSDCard
  | saved (path : List Char)
  | recordingStarted (path : List Char)
  | stopped (frames : Nat) (elapsed fps : ℚ)
deriving DecidableEq, Repr

/-- Observable side effects of one `trigger_callback` call: whether
`get_sd_path` was invoked, files created on the card, messages printed, and
`os.sync()` calls. -/
structure Effects where
  mountAttempted : Bool
  createdFiles : List (List Char)
  messages : List Msg
  syncs : Nat
deriving DecidableEq, Repr

/-- No side effects. -/
def Effects.none : Effects := ⟨false, [], [], 0⟩

/-- The environment one `trigger_callback` call runs in: the result of
`get_sd_path()` (the mount subprocess boundary), the DCIM directory listing
as `os.listdir` would return it (the directory itself exists after
`os.makedirs(..., exist_ok=True)`), and the wall clock `time.time()`. -/
structure Env where
  mount_result : Option (List Char)
  listing : List (List Char)
  now : ℚ
deriving DecidableEq, Repr

/-- The module-level globals of `main.py` (lines 19–26).
`current_mode` embeds the int `0`/`1` as `false` = photo ("cam"), `true` =
video. -/
structure CamState where
  current_mode : Bool
  last_frame : Option Frame
  is_recording : Bool
  video_writer : Option VideoWriter
  video_filepath : Option (List Char)
  camera_fps : ℚ
  recording_start_time : Option ℚ
  recording_frame_count : Nat
deriving DecidableEq, Repr

/-- The initial values of the globals (`main.py` lines 19–26), with
`camera_fps` as calibrated by `main` before the loop starts. -/
def camInit (fps : ℚ) : CamState :=
  { current_mode := false
    last_frame := none
    is_recording := false
    video_writer := none
    video_filepath := none
    camera_fps := fps
    recording_start_time := none
    recording_frame_count := 0 }

/-- `trigger_callback` (`main.py` lines 56–96).  Structure mirrors the source:
return early if `last_frame is None`; mount the card (return with a message
if that fails); `os.makedirs(dcim_path, exist_ok=True)`; then photo save, or
start recording, or stop recording.  `recording_start_time.getD 0` embeds the
read of the global in `time.time() - recording_start_time`: it is only ever
reached with the start time set (an invariant proved below); on `None` the
Python would raise. -/
def trigger_callback (st : CamState) (env : Env) : CamState × Effects :=
  match st.last_frame with
  | none => (st, Effects.none)
  | some frame =>
    match env.mount_result with
    | none => (st, { Effects.none with mountAttempted := true, messages := [Msg.noSDCard] })
    | some mount_path =>
      let dcim_path := path_join mount_path "DCIM".toList
      if st.current_mode = false then
        -- Photo mode: save `last_frame`, sync, report.
        let filepath := next_filename_core env.listing dcim_path "img_".toList ".jpg".toList
        (st, { mountAttempted := true, createdFiles := [filepath],
               messages := [Msg.saved filepath], syncs := 1 })
      else if st.is_recording = false then
        -- Video mode, idle: open a writer at `camera_fps` and the frame's
        -- dimensions, mark recording, record the start time, zero the counter.
        let filepath := next_filename_core env.listing dcim_path "mov_".toList ".mp4".toList
        let writer : VideoWriter :=
          { path := filepath, fps := st.camera_fps, frame_width := frame.cols,
            frame_height := frame.rows, frames := [] }
        ({ st with
            video_filepath := some filepath
            video_writer := some writer
            is_recording := true
            recording_start_time := some env.now
            recording_frame_count := 0 },
         { mountAttempted := true, createdFiles := [filepath],
           messages := [Msg.recordingStarted filepath], syncs := 0 })
      else
        -- Video mode, recording: release the writer (if any), sync, maybe
        -- recompute fps; always clear `is_recording`.
        match st.video_writer with
        | some _ =>
          let elapsed := env.now - st.recording_start_time.getD 0
          if 0 < elapsed ∧ 0 < st.recording_frame_count then
            ({ st with
                video_writer := Option.none
                is_recording := false
                camera_fps := (st.recording_frame_count : ℚ) / elapsed },
             { mountAttempted := true, createdFiles := [],
               messages := [Msg.stopped st.recording_frame_count elapsed
                 ((st.recording_frame_count : ℚ) / elapsed)], syncs := 1 })
          else
            ({ st with video_writer := Option.none, is_recording := false },
             { mountAttempted := true, createdFiles := [], messages := [], syncs := 1 })
        | none =>
          ({ st with is_recording := false },
           { Effects.none with mountAttempted := true })

/- The main loop (`main.py` lines 139–169). -/

/-- External inputs consumed by one loop iteration: the two sampled GPIO
levels, the frame returned by `cap.read()` (a successful read — a failed read
breaks the loop and is outside these traces), and the environment a fired
trigger callback would run in. -/
structure TickIn where
  mode_level : Bool
  trig_level : Bool
  frame : Frame
  env : Env
deriving DecidableEq, Repr

/-- State carried across loop iterations: the two `Switch` objects, the local
`prev_mode` of `main`, and the globals. -/
structure LoopState where
  mode_switch : Switch
  trigger : Switch
  prev_mode : Option Bool
  cam : CamState
deriving DecidableEq, Repr

/-- State at the top of the loop: both switches fresh, `prev_mode = None`,
globals initial except the calibrated `camera_fps`. -/
def loopInit (fps : ℚ) : LoopState :=
  { mode_switch := Switch.init, trigger := Switch.init, prev_mode := none, cam := camInit fps }

/-- The `if is_recording and video_writer:` block at the bottom of the loop
body (`main.py` lines 156–158): append the just-read frame to the open writer
and increment `recording_frame_count`. -/
def appendFrame (st : CamState) (f : Frame) : CamState :=
  if st.is_recording then
    match st.video_writer with
    | some w =>
      { st with
          video_writer := some { w with frames := w.frames ++ [f] }
          recording_frame_count := st.recording_frame_count + 1 }
    | none => st
  else st

/-- One iteration of the `while True` body, in source order:
`mode_switch.update()` (no callback), `trigger.update()` (callback =
`trigger_callback`, run synchronously inside the update), the
`mode_switch.state != prev_mode` check, `cap.read()` into `last_frame`, and
the `if is_recording and video_writer` frame append. -/
def tick (ls : LoopState) (inp : TickIn) : LoopState × Effects :=
  let m := ls.mode_switch.update inp.mode_level
  let t := ls.trigger.update inp.trig_level
  let c1e := if t.1 then trigger_callback ls.cam inp.env else (ls.cam, Effects.none)
  let c1 := c1e.1
  let c2 := if some m.2.state = ls.prev_mode then c1 else { c1 with current_mode := m.2.state }
  let pm := if some m.2.state = ls.prev_mode then ls.prev_mode else some m.2.state
  let c3 := { c2 with last_frame := some inp.frame }
  ({ mode_switch := m.2, trigger := t.2, prev_mode := pm, cam := appendFrame c3 inp.frame },
   c1e.2)

/-- Run the loop over a list of per-tick inputs. -/
def runTicks (ls : LoopState) : List TickIn → LoopState
  | [] => ls
  | i :: is => runTicks (tick ls i).1 is

/- FPS calibration (`main.py` lines 115–119). -/

/-- The calibration loop: each prospective `cap.read()` is an event carrying
the value `time.time()` would return at the loop condition and whether the
read succeeds.  The loop runs while `time.time() - start < 1.0`, counting
successful reads, and stops at the first failing check (later events never
happen). -/
def calibFrames (start : ℚ) : List (ℚ × Bool) → Nat
  | [] => 0
  | (t, ok) :: rest =>
    if t - start < 1 then (if ok then 1 else 0) + calibFrames start rest else 0

/-- `camera_fps = frames / (time.time() - start) if frames > 0 else 10.0`,
where `tEnd` is the wall clock when the loop has exited. -/
def calibrate (start : ℚ) (events : List (ℚ × Bool)) (tEnd : ℚ) : ℚ :=
  if 0 < calibFrames start events then (calibFrames start events : ℚ) / (tEnd - start) else 10

/-- Spec-side count (spec §4.5): the successful reads among the samples that
fall inside the fixed 1.0-second wall-clock window. -/
def specCalibCount (start : ℚ) (events : List (ℚ × Bool)) : Nat :=
  ((events.takeWhile (fun e => decide (e.1 - start < 1))).filter (fun e => e.2)).length

/- Reachability invariant: while a recording is active, the output path, the
writer, the cached frame and the start timestamp are all set. -/

/-- Invariant tied to `is_recording`: whenever it is true, `video_filepath`,
`video_writer`, `last_frame` and `recording_start_time` are all set. -/
def RecInv (st : CamState) : Prop :=
  st.is_recording = true →
    st.video_filepath.isSome = true ∧ st.video_writer.isSome = true ∧
    st.last_frame.isSome = true ∧ st.recording_start_time.isSome = true

/- Concrete fixtures used by witnesses and counterexamples. -/

/-- `get_sd_path()` fails (no SD card mountable). -/
def envNoSD : Env := { mount_result := none, listing := [], now := 0 }

/-- `get_sd_path()` returns `"sd"`; the DCIM directory is empty; the clock
reads `t`. -/
def envSD (t : ℚ) : Env := { mount_result := some "sd".toList, listing := [], now := t }

/-- A 640×480 frame. -/
def f1 : Frame := ⟨480, 640⟩

/-- Tick: mode switch reads video, trigger reads low. -/
def camI1 : TickIn := { mode_level := true, trig_level := false, frame := f1, env := envSD 0 }

/-- Tick: trigger goes high (an edge after `camI1`) at time 0. -/
def camI2 : TickIn := { mode_level := true, trig_level := true, frame := f1, env := envSD 0 }

/-- Tick: trigger drops back low (an edge after `camI2`) at time 1. -/
def camI3 : TickIn := { mode_level := true, trig_level := false, frame := f1, env := envSD 1 }

/-- Tick: mode switch flips to photo while the trigger stays high (no trigger
edge after `camI2`). -/
def camI4 : TickIn := { mode_level := false, trig_level := true, frame := f1, env := envSD 1 }

/-- The loop state after `camI1, camI2` from `loopInit 10`: video mode, one
recording active on `sd/DCIM/mov_001.mp4`, one frame appended. -/
def LS2 : LoopState where
  mode_switch := ⟨true, some true⟩
  trigger := ⟨true, some true⟩
  prev_mode := some true
  cam :=
    { current_mode := true
      last_frame := some f1
      is_recording := true
      video_writer := some ⟨"sd/DCIM/mov_001.mp4".toList, 10, 640, 480, [f1]⟩
      video_filepath := some "sd/DCIM/mov_001.mp4".toList
      camera_fps := 10
      recording_start_time := some 0
      recording_frame_count := 1 }

/-- Photo mode with a captured frame. -/
def stPhoto : CamState := { camInit 10 with last_frame := some f1 }

/-- Video mode, idle, with a captured frame. -/
def stVideo : CamState := { camInit 10 with current_mode := true, last_frame := some f1 }

/- Theorems. -/
theorem runFired_established (p : Bool) (s : Bool) (ls : List Bool) :
    runFired ⟨s, some p⟩ ls = List.zipWith bne ls (p :: ls) := by
  induction ls generalizing p s with
  | nil => rfl
  | cons l t ih =>
    simp only [runFired, Switch.update, List.zipWith]
    exact congrArg (_ :: ·) (ih l l)

/-- **C1.** For every sequence of sampled levels fed to a `Switch`, `update()`
fires the edge callback exactly on those calls where the newly sampled level
differs from the previously stored one and a previous level exists; the very
first `update()` after construction never fires, whatever level it samples. -/
theorem switch_edges_exact (ls : List Bool) :
    runFired Switch.init ls = specEdges ls := by
  cases ls with
  | nil => rfl
  | cons l t =>
    simp only [runFired, Switch.init, Switch.update, specEdges]
    exact congrArg (false :: ·) (runFired_established l l t)

/- Equivalence of the scan-loop extraction with the spec-side decomposition,
for a non-empty extension. -/

theorem num_part_eq_spec_mid (f pre ext : List Char) (hext : ext ≠ []) :
    num_part f pre ext = spec_mid pre ext f := by
  have hlen : ext.length ≠ 0 := fun h => hext (List.length_eq_zero.mp h)
  unfold num_part spec_mid
  rw [if_neg hlen]
  congr 1
  omega

theorem pyIsdigit_of_parts {s : List Char} (h1 : s ≠ []) (h2 : s.all Char.isDigit = true) :
    pyIsdigit s = true := by
  unfold pyIsdigit
  simp [h2, h1]

theorem parts_of_pyIsdigit {s : List Char} (h : pyIsdigit s = true) :
    s ≠ [] ∧ s.all Char.isDigit = true := by
  unfold pyIsdigit at h
  have h' := (Bool.and_eq_true _ _).mp h
  refine ⟨fun he => ?_, h'.2⟩
  subst he
  simp at h'

theorem code_suffix_eq_spec_suffix (pre ext f : List Char) (hext : ext ≠ []) :
    code_suffix pre ext f = spec_suffix pre ext f := by
  have hnum := num_part_eq_spec_mid f pre ext hext
  unfold code_suffix spec_suffix
  by_cases hpe : (pyStartswith f pre && pyEndswith f ext) = true
  · rw [if_pos hpe]
    have hp : pre <+: f := by
      have h1 := ((Bool.and_eq_true _ _).mp hpe).1
      unfold pyStartswith at h1
      exact List.isPrefixOf_iff_prefix.mp h1
    have hs : ext <:+ f := by
      have h2 := ((Bool.and_eq_true _ _).mp hpe).2
      unfold pyEndswith at h2
      exact List.isSuffixOf_iff_suffix.mp h2
    by_cases hd : pyIsdigit (num_part f pre ext) = true
    · rw [if_pos hd]
      obtain ⟨hne, hall⟩ := parts_of_pyIsdigit hd
      obtain ⟨t, ht⟩ := hp
      obtain ⟨u, hu⟩ := hs
      have hdropt : f.drop pre.length = t := by rw [← ht, List.drop_left]
      have hmid : num_part f pre ext = t.take (f.length - pre.length - ext.length) := by
        rw [hnum]; unfold spec_mid; rw [hdropt]
      have hflen : f.length = pre.length + t.length := by rw [← ht]; simp
      have hulen : f.length = u.length + ext.length := by rw [← hu]; simp
      have hlt : pre.length + ext.length < f.length := by
        by_contra hle
        apply hne
        rw [hmid]
        exact List.take_eq_nil_iff.mpr (Or.inl (by omega))
      have hextdrop : f.drop (f.length - ext.length) = ext := by
        rw [show f.length - ext.length = u.length by omega, ← hu]
        exact List.drop_left u ext
      have htdrop : t.drop (t.length - ext.length) = ext := by
        have h1 : f.drop (f.length - ext.length) = t.drop (t.length - ext.length) := by
          rw [show f.length - ext.length = pre.length + (t.length - ext.length) by omega, ← ht,
            List.drop_append]
        rw [← h1, hextdrop]
      have ht2 : t = num_part f pre ext ++ ext := by
        conv_lhs => rw [← List.take_append_drop (t.length - ext.length) t]
        rw [htdrop, hmid,
          show t.length - ext.length = f.length - pre.length - ext.length by omega]
      have hdecomp : pre ++ num_part f pre ext ++ ext = f := by
        rw [List.append_assoc, ← ht2]
        exact ht
      rw [if_pos ⟨by rw [← hnum]; exact hdecomp, by rw [← hnum]; exact hne,
        by rw [← hnum]; exact hall⟩, hnum]
    · rw [if_neg hd, if_neg]
      intro ⟨_, hne, hall⟩
      exact hd (by rw [hnum]; exact pyIsdigit_of_parts hne hall)
  · rw [if_neg hpe, if_neg]
    intro ⟨hdec, _, _⟩
    apply hpe
    refine (Bool.and_eq_true _ _).mpr ⟨?_, ?_⟩
    · unfold pyStartswith
      exact List.isPrefixOf_iff_prefix.mpr ⟨spec_mid pre ext f ++ ext, by
        rw [← List.append_assoc]
        exact hdec⟩
    · unfold pyEndswith
      exact List.isSuffixOf_iff_suffix.mpr ⟨pre ++ spec_mid pre ext f, hdec⟩

theorem highest_numbered_eq_spec (pre ext : List Char) (listing : List (List Char))
    (hext : ext ≠ []) : highest_numbered pre ext listing = spec_highest pre ext listing := by
  unfold highest_numbered spec_highest
  have hfun : (fun (h : Nat) (f : List Char) =>
      match code_suffix pre ext f with
      | some n => max h n
      | none => h) =
      (fun (h : Nat) (f : List Char) =>
      match spec_suffix pre ext f with
      | some n => max h n
      | none => h) := by
    funext h f
    rw [code_suffix_eq_spec_suffix pre ext f hext]
  rw [hfun]

theorem recInv_trigger (st : CamState) (env : Env) (h : RecInv st) :
    RecInv (trigger_callback st env).1 := by
  unfold RecInv at h ⊢
  unfold trigger_callback
  cases hf : st.last_frame with
  | none => exact h
  | some frame =>
    cases hm : env.mount_result with
    | none => exact h
    | some mount_path =>
      by_cases hmode : st.current_mode = false
      · simp only [if_pos hmode]
        exact h
      · simp only [if_neg hmode]
        by_cases hrec : st.is_recording = false
        · simp only [if_pos hrec]
          intro _
          exact ⟨rfl, rfl, rfl, rfl⟩
        · simp only [if_neg hrec]
          cases hw : st.video_writer with
          | some w =>
            intro hcontra
            split_ifs at hcontra
          | none =>
            intro hcontra
            simp at hcontra

theorem recInv_set_frame (st : CamState) (f : Frame) (h : RecInv st) :
    RecInv { st with last_frame := some f } := by
  intro hrec
  obtain ⟨h1, h2, _, h4⟩ := h hrec
  exact ⟨h1, h2, rfl, h4⟩

theorem recInv_set_mode (st : CamState) (b : Bool) (h : RecInv st) :
    RecInv { st with current_mode := b } := fun hrec => h hrec

theorem recInv_appendFrame (st : CamState) (f : Frame) (h : RecInv st) :
    RecInv (appendFrame st f) := by
  unfold appendFrame
  split
  · cases hw : st.video_writer with
    | some w =>
      intro hrec
      obtain ⟨h1, _, h3, h4⟩ := h hrec
      exact ⟨h1, rfl, h3, h4⟩
    | none => exact h
  · exact h

theorem recInv_tick (ls : LoopState) (inp : TickIn) (h : RecInv ls.cam) :
    RecInv (tick ls inp).1.cam := by
  have h1 : RecInv (if (ls.trigger.update inp.trig_level).1 then
      trigger_callback ls.cam inp.env else (ls.cam, Effects.none)).1 := by
    split
    · exact recInv_trigger _ _ h
    · exact h
  simp only [tick]
  by_cases hpm : some (ls.mode_switch.update inp.mode_level).2.state = ls.prev_mode
  · simp only [if_pos hpm]
    exact recInv_appendFrame _ _ (recInv_set_frame _ _ h1)
  · simp only [if_neg hpm]
    exact recInv_appendFrame _ _ (recInv_set_frame _ _ (recInv_set_mode _ _ h1))

theorem recInv_runTicks (ls : LoopState) (inps : List TickIn) (h : RecInv ls.cam) :
    RecInv (runTicks ls inps).cam := by
  induction inps generalizing ls with
  | nil => exact h
  | cons i is ih => exact ih _ (recInv_tick _ _ h)

theorem recInv_loopInit (fps : ℚ) : RecInv (loopInit fps).cam := by
  intro hc
  simp [loopInit, camInit] at hc

/-- **C2 (amended).** In every state reachable by any sequence of ticks
(trigger edges included), if a recording is active then `video_filepath` is
set.  The converse direction of the original claim fails: stopping a
recording clears `is_recording` and `video_writer` but never resets
`video_filepath` (see the counterexample). -/
theorem recording_filepath_set (fps : ℚ) (inps : List TickIn)
    (h : (runTicks (loopInit fps) inps).cam.is_recording = true) :
    (runTicks (loopInit fps) inps).cam.video_filepath.isSome = true :=
  (recInv_runTicks (loopInit fps) inps (recInv_loopInit fps) h).1

theorem recording_filepath_set_witness :
    (runTicks (loopInit 10) [camI1, camI2]).cam.video_filepath.isSome = true :=
  recording_filepath_set 10 [camI1, camI2] (by decide)

/-- **C2 counterexample.** Mode to video, trigger to start, trigger to stop:
afterwards `is_recording = false` yet `video_filepath` is still set, so
"`video_filepath` is set iff `is_recording`" fails and the output path is not
unset when the recording stops. -/
theorem filepath_iff_recording_false :
    ¬ ((runTicks (loopInit 10) [camI1, camI2, camI3]).cam.video_filepath.isSome = true ↔
       (runTicks (loopInit 10) [camI1, camI2, camI3]).cam.is_recording = true) := by
  have h12 : (tick (tick (loopInit 10) camI1).1 camI2).1 = LS2 := by decide
  have h3 : (tick LS2 camI3).1.cam.is_recording = false ∧
      (tick LS2 camI3).1.cam.video_filepath = some "sd/DCIM/mov_001.mp4".toList := by
    norm_num [tick, appendFrame, trigger_callback, Switch.update, LS2, camI3, envSD,
      Effects.none]
  have hrun : runTicks (loopInit 10) [camI1, camI2, camI3] = (tick LS2 camI3).1 := by
    simp only [runTicks]
    rw [h12]
  rw [hrun]
  intro hiff
  have hsome : (tick LS2 camI3).1.cam.video_filepath.isSome = true := by
    rw [h3.2]
    rfl
  have := hiff.mp hsome
  rw [h3.1] at this
  exact Bool.false_ne_true this

/-- **C4.** In video mode, idle, with a captured frame: a trigger edge whose
media resolution fails leaves the whole state unchanged, surfaces the
"No SD card" message, creates no file and performs no sync; calling the
handler again from the resulting state behaves identically (the controller
is usable on the next tick). -/
theorem trigger_no_media_noop (st : CamState) (env : Env) (f : Frame)
    (hf : st.last_frame = some f) (hmode : st.current_mode = true)
    (hrec : st.is_recording = false) (hm : env.mount_result = none) :
    trigger_callback st env =
      (st, { Effects.none with mountAttempted := true, messages := [Msg.noSDCard] }) ∧
    trigger_callback (trigger_callback st env).1 env = trigger_callback st env := by
  have h1 : trigger_callback st env =
      (st, { Effects.none with mountAttempted := true, messages := [Msg.noSDCard] }) := by
    unfold trigger_callback
    rw [hf, hm]
  exact ⟨h1, by rw [h1]; exact h1⟩

theorem trigger_no_media_noop_witness :
    trigger_callback stVideo envNoSD =
      (stVideo, { Effects.none with mountAttempted := true, messages := [Msg.noSDCard] }) :=
  (trigger_no_media_noop stVideo envNoSD f1 rfl rfl rfl rfl).1

/-- **C8.** A trigger edge arriving before any frame has been acquired
(`last_frame is None`) is a silent no-op: no mount attempt, no file, no
message, no sync, state unchanged. -/
theorem trigger_before_first_frame (st : CamState) (env : Env)
    (hf : st.last_frame = none) :
    trigger_callback st env = (st, Effects.none) := by
  unfold trigger_callback
  rw [hf]

theorem trigger_before_first_frame_witness :
    trigger_callback (camInit 10) (envSD 0) = (camInit 10, Effects.none) :=
  trigger_before_first_frame (camInit 10) (envSD 0) rfl

/-- **C5 (amended).** From any reachable state with an active recording and
still in video mode, a trigger edge whose media path resolves releases the
writer, syncs, transitions to VideoIdle (not recording, mode still video) and
sets `camera_fps := frame_count / elapsed` exactly when `elapsed > 0` and
`frame_count > 0`, keeping the prior estimate otherwise.  The original claim
omitted the media condition and the mode condition: a trigger edge with no
mountable card, or after the mode switch has been flipped to photo, leaves
the recording running (see the counterexample). -/
theorem trigger_stops_recording (fps : ℚ) (inps : List TickIn) (env : Env) (m : List Char)
    (hrec : (runTicks (loopInit fps) inps).cam.is_recording = true)
    (hmode : (runTicks (loopInit fps) inps).cam.current_mode = true)
    (hm : env.mount_result = some m) :
    (trigger_callback (runTicks (loopInit fps) inps).cam env).1.is_recording = false ∧
    (trigger_callback (runTicks (loopInit fps) inps).cam env).1.video_writer = none ∧
    (trigger_callback (runTicks (loopInit fps) inps).cam env).2.syncs = 1 ∧
    (trigger_callback (runTicks (loopInit fps) inps).cam env).1.current_mode = true ∧
    (trigger_callback (runTicks (loopInit fps) inps).cam env).1.camera_fps =
      (if 0 < env.now - (runTicks (loopInit fps) inps).cam.recording_start_time.getD 0 ∧
          0 < (runTicks (loopInit fps) inps).cam.recording_frame_count then
        ((runTicks (loopInit fps) inps).cam.recording_frame_count : ℚ) /
          (env.now - (runTicks (loopInit fps) inps).cam.recording_start_time.getD 0)
      else (runTicks (loopInit fps) inps).cam.camera_fps) := by
  set st := (runTicks (loopInit fps) inps).cam with hst
  obtain ⟨-, hw, hlf, -⟩ := recInv_runTicks (loopInit fps) inps (recInv_loopInit fps) hrec
  rw [Option.isSome_iff_exists] at hw hlf
  obtain ⟨w, hw2⟩ := hw
  obtain ⟨f, hlf2⟩ := hlf
  rw [← hst] at hw2 hlf2
  have hmf : ¬ st.current_mode = false := by simp [hmode]
  have hrf : ¬ st.is_recording = false := by simp [hrec]
  simp only [trigger_callback, hlf2, hm, hw2]
  rw [if_neg hmf, if_neg hrf]
  by_cases hC : st.recording_start_time.getD 0 < env.now ∧ 0 < st.recording_frame_count
  · simp [hC, hmode]
  · simp [hC, hmode]

theorem trigger_stops_recording_witness :
    (trigger_callback (runTicks (loopInit 10) [camI1, camI2]).cam (envSD 1)).1.is_recording
      = false :=
  (trigger_stops_recording 10 [camI1, camI2] (envSD 1) "sd".toList
    (by decide) (by decide) rfl).1

/-- **C5 counterexample.** Both reachable: (a) recording active, trigger edge
with no mountable media — recording keeps running; (b) recording active but
the mode switch has been flipped to photo, trigger edge with media available
— a photo is taken and the recording keeps running.  Either refutes "for
every active recording, a trigger edge closes the file and transitions to
VideoIdle". -/
theorem trigger_stop_claim_false :
    (runTicks (loopInit 10) [camI1, camI2]).cam.is_recording = true ∧
    (trigger_callback (runTicks (loopInit 10) [camI1, camI2]).cam envNoSD).1.is_recording
      = true ∧
    (runTicks (loopInit 10) [camI1, camI2, camI4]).cam.is_recording = true ∧
    (trigger_callback (runTicks (loopInit 10) [camI1, camI2, camI4]).cam
      (envSD 1)).1.is_recording = true := by
  refine ⟨by decide, by decide, by decide, by decide⟩

/-- **C6.** A tick on which the trigger samples no edge never interrupts an
active recording, whatever the mode switch does (including a mode edge): the
writer stays open with the new frame appended, `is_recording` stays true, and
the frame counter advances. -/
theorem mode_edge_keeps_recording (ls : LoopState) (inp : TickIn) (w : VideoWriter)
    (hrec : ls.cam.is_recording = true) (hw : ls.cam.video_writer = some w)
    (htrig : ls.trigger.prev_state = some inp.trig_level) :
    (tick ls inp).1.cam.is_recording = true ∧
    (tick ls inp).1.cam.video_writer = some { w with frames := w.frames ++ [inp.frame] } ∧
    (tick ls inp).1.cam.recording_frame_count = ls.cam.recording_frame_count + 1 := by
  have hfired : (ls.trigger.update inp.trig_level).1 = false := by
    simp [Switch.update, htrig]
  simp only [tick, hfired, Bool.false_eq_true, if_false]
  by_cases hpm : some (ls.mode_switch.update inp.mode_level).2.state = ls.prev_mode
  · simp only [if_pos hpm, appendFrame, hrec, hw]
    exact ⟨rfl, rfl, rfl⟩
  · simp only [if_neg hpm, appendFrame, hrec, hw]
    exact ⟨rfl, rfl, rfl⟩

theorem mode_edge_keeps_recording_witness :
    (tick LS2 camI4).1.cam.is_recording = true :=
  (mode_edge_keeps_recording LS2 camI4 ⟨"sd/DCIM/mov_001.mp4".toList, 10, 640, 480, [f1]⟩
    rfl rfl rfl).1

/-- **C3 (amended).** For every existing directory and non-empty extension,
`get_next_filename` returns the directory joined with `prefix`, then 1 plus
the maximum numeric suffix among entries of the form
`prefix<digits>extension` (entries whose middle part is not a non-empty
digit string are ignored; the maximum is 0 when nothing matches, so an empty
directory yields suffix 001), zero-padded to a minimum of 3 digits, then the
extension.  The original claim also covered non-existent directories (where
`os.listdir` raises instead of yielding 001) and the empty extension (where
the Python slice `f[len(prefix):-0]` is always empty, so every numeric
suffix is ignored and the result is always 001) — see the counterexample. -/
theorem next_filename_formula (listing : List (List Char)) (d pre ext : List Char)
    (hext : ext ≠ []) :
    get_next_filename (some listing) d pre ext =
      Except.ok (path_join d (pre ++ pad3 (spec_highest pre ext listing + 1) ++ ext)) := by
  simp only [get_next_filename, next_filename_core,
    highest_numbered_eq_spec pre ext listing hext]

theorem next_filename_formula_witness :
    get_next_filename (some ["img_007.jpg".toList, "img_010.jpg".toList]) "DCIM".toList
      "img_".toList ".jpg".toList =
      Except.ok (path_join "DCIM".toList ("img_".toList ++
        pad3 (spec_highest "img_".toList ".jpg".toList
          ["img_007.jpg".toList, "img_010.jpg".toList] + 1) ++ ".jpg".toList)) :=
  next_filename_formula ["img_007.jpg".toList, "img_010.jpg".toList] "DCIM".toList
    "img_".toList ".jpg".toList (by decide)

/-- **C3 counterexample.** (a) On a non-existent directory the scan raises
(`Except.error`), it does not return the suffix-001 name.  (b) With the empty
extension, a directory holding `img_5` has maximum spec suffix 5, yet the
code proposes `d/img_001`, not `d/img_006`. -/
theorem next_filename_claim_false :
    get_next_filename none "sd/DCIM".toList "img_".toList ".jpg".toList ≠
      Except.ok (path_join "sd/DCIM".toList
        ("img_".toList ++ pad3 (0 + 1) ++ ".jpg".toList)) ∧
    spec_highest "img_".toList [] ["img_5".toList] = 5 ∧
    get_next_filename (some ["img_5".toList]) "d".toList "img_".toList [] ≠
      Except.ok (path_join "d".toList ("img_".toList ++ pad3 (5 + 1) ++ [])) ∧
    get_next_filename (some ["img_5".toList]) "d".toList "img_".toList [] =
      Except.ok "d/img_001".toList := by
  refine ⟨by decide, by decide, by decide, by decide⟩

/-- **C7.** `get_next_filename` is a pure function of the directory listing
and its arguments — two calls with the same arguments and an unchanged
directory return the same path — and on a directory holding exactly
`img_007.jpg` and `img_010.jpg` it proposes `img_011.jpg`. -/
theorem next_filename_idempotent (dir : Option (List (List Char))) (d pre ext : List Char) :
    get_next_filename dir d pre ext = get_next_filename dir d pre ext ∧
    get_next_filename (some ["img_007.jpg".toList, "img_010.jpg".toList]) "DCIM".toList
      "img_".toList ".jpg".toList = Except.ok "DCIM/img_011.jpg".toList :=
  ⟨rfl, by decide⟩

theorem calibFrames_eq_spec (start : ℚ) (events : List (ℚ × Bool)) :
    calibFrames start events = specCalibCount start events := by
  induction events with
  | nil => rfl
  | cons e rest ih =>
    obtain ⟨t, ok⟩ := e
    by_cases h : t - start < 1
    · cases ok with
      | true =>
        simp [calibFrames, specCalibCount, List.takeWhile_cons, h, List.filter] at ih ⊢
        omega
      | false =>
        simp [calibFrames, specCalibCount, List.takeWhile_cons, h, List.filter] at ih ⊢
        omega
    · simp [calibFrames, specCalibCount, List.takeWhile_cons, h]

/-- **C9.** The startup calibration samples reads while the wall clock stays
inside the fixed 1.0-second window (the loop stops at the first check at or
past `start + 1`), counts the successful reads, and sets the rate to
`count / elapsed` when `count > 0` and to the fallback 10.0 otherwise. -/
theorem calibrate_spec (start tEnd : ℚ) (events : List (ℚ × Bool)) :
    calibrate start events tEnd =
      (if 0 < specCalibCount start events then
        (specCalibCount start events : ℚ) / (tEnd - start)
      else 10) := by
  unfold calibrate
  rw [calibFrames_eq_spec]

/-- **C10.** A `Switch` with an established previous level fires its callback
on both transitions of a press-and-release (`[!p, p]` fires twice); and in
photo mode with a captured frame and a mountable card, each fired
`trigger_callback` saves exactly one photo while leaving the state unchanged
— so one complete press-and-release actuation saves two photos. -/
theorem press_release_two_saves (p s : Bool) (st : CamState) (env1 env2 : Env)
    (f : Frame) (m1 m2 : List Char)
    (hmode : st.current_mode = false) (hf : st.last_frame = some f)
    (h1 : env1.mount_result = some m1) (h2 : env2.mount_result = some m2) :
    runFired ⟨s, some p⟩ [!p, p] = [true, true] ∧
    (trigger_callback st env1).1 = st ∧
    (trigger_callback st env1).2.createdFiles.length = 1 ∧
    (trigger_callback (trigger_callback st env1).1 env2).2.createdFiles.length = 1 := by
  have key : ∀ (env : Env) (m : List Char), env.mount_result = some m →
      trigger_callback st env =
        (st, Effects.mk true
          [next_filename_core env.listing (path_join m "DCIM".toList)
            "img_".toList ".jpg".toList]
          [Msg.saved (next_filename_core env.listing (path_join m "DCIM".toList)
            "img_".toList ".jpg".toList)]
          1) := by
    intro env m hm
    simp only [trigger_callback, hf, hm, if_pos hmode]
  have hst1 : (trigger_callback st env1).1 = st := by rw [key env1 m1 h1]
  refine ⟨by cases p <;> rfl, hst1, ?_, ?_⟩
  · rw [key env1 m1 h1]
    rfl
  · rw [hst1, key env2 m2 h2]
    rfl

theorem press_release_two_saves_witness :
    runFired ⟨false, some false⟩ [!false, false] = [true, true] :=
  (press_release_two_saves false false stPhoto (envSD 0) (envSD 0) f1 "sd".toList "sd".toList
    rfl rfl rfl rfl).1
